import Mathlib

/-!
Verification of the threat-detector scan engine (`scan.ts`, indicator-stamping
variant) against its design specification.  The TypeScript source is shallowly
embedded: JavaScript strings become `List Char`-backed `String`s, dynamic
documents become structures of `Option` fields (absent ⇒ `none`), JS number
truthiness is modelled explicitly, and the asynchronous orchestrator becomes a
pure step function over a list of timed pages, with an `Except` variant for the
failure-propagation behaviour of `async.eachLimit`.
-/

namespace ThreatScan

/-- Substring test on character lists, modelling JS `String.prototype.includes`:
`hasInfix pat s` is true iff `pat` occurs contiguously inside `s`. -/
def hasInfix (pat : List Char) : List Char → Bool
  | [] => pat.isEmpty
  | c :: cs => pat.isPrefixOf (c :: cs) || hasInfix pat cs

/-- JS `s.includes(pat)` on Lean strings. -/
def strIncludes (s pat : String) : Bool := hasInfix pat.toList s.toList

/-- The maximal leading run of decimal digits of a character list, as consumed
by JS `parseInt(s, 10)`. -/
def leadingDigits : List Char → List Char
  | [] => []
  | c :: cs => if c.isDigit then c :: leadingDigits cs else []

/-- Value of a decimal digit string, most significant digit first. -/
def digitsToNat (ds : List Char) : Nat :=
  List.foldl (fun acc c => acc * 10 + (c.toNat - 48)) 0 ds

/-- JS `parseInt(s, 10)`: the value of the leading digit run, `none` when the
string has no leading digit (NaN). -/
def parseIntJS (s : String) : Option Nat :=
  let ds := leadingDigits s.toList
  if ds.isEmpty then none else some (digitsToNat ds)

/-- The multiplier chosen by the scan for an interval string:
`interval.includes("m") ? 60 : interval.includes("h") ? 3600 : 1`
(from `scan.ts`, the `intervalMultiplier` conditional). -/
def intervalMultiplier (interval : String) : Nat :=
  if strIncludes interval "m" then 60
  else if strIncludes interval "h" then 3600
  else 1

/-- `parseInt(interval, 10) * intervalMultiplier` — the scan's wall-clock
budget in seconds; `none` models the NaN outcome of a digitless string. -/
def intervalInSeconds (interval : String) : Option Nat :=
  (parseIntJS interval).map (fun n => n * intervalMultiplier interval)

/-- The `interval = "1m"` default parameter of `scan`. -/
def defaultedInterval (interval : Option String) : String :=
  interval.getD "1m"

/-- The `lte` bound of the `threat.detection.timestamp` range clause of
`threatQuery`: the template string `now-${interval}`. -/
def threatQueryLte (interval : String) : String :=
  "now-" ++ interval

/-- An indicator document (`ThreatSource` in the source: a loosely typed record
read via dotted-path lookup).  Each recognized leaf is an `Option`: `none`
models an absent path.  Observable values are strings; the scanner-owned
detection fields are a timestamp (epoch millis) and a cumulative match count. -/
structure ThreatSource where
  urlFull : Option String
  fileHashSha1 : Option String
  fileHashMd5 : Option String
  filePeImphash : Option String
  ip : Option String
  detectionTimestamp : Option Nat
  detectionMatches : Option Nat
deriving DecidableEq

/-- Dotted-path lookup `get(threat, "threat.indicator." ++ g)` on an indicator
document: the recognized leaves resolve to the corresponding field, everything
else is `undefined`. -/
def getThreatIndicatorPath (t : ThreatSource) : String → Option String
  | "url.full" => t.urlFull
  | "file.hash.sha1" => t.fileHashSha1
  | "file.hash.md5" => t.fileHashMd5
  | "file.pe.imphash" => t.filePeImphash
  | "ip" => t.ip
  | _ => none

/-- JS truthiness of a possibly-absent string: `undefined` and `""` are falsy. -/
def truthyStr : Option String → Bool
  | none => false
  | some s => s ≠ ""

/-- The fixed ordered field list `FIELDS` of the source. -/
def FIELDS : List String :=
  ["url.full", "file.hash.sha1", "file.hash.md5", "file.pe.imphash",
   "source.ip", "destination.ip"]

/-- One single-field `match` predicate of the should clause, pairing an event
field name with the indicator value it must match. -/
structure MatchClause where
  field : String
  value : Option String
deriving DecidableEq

/-- `shouldClauseForThreat` (scan.ts): map each field of `FIELDS` to the value
probed at `threat.indicator.${field.includes(".ip") ? "ip" : field}`, keep the
truthy ones, and turn each survivor into a match predicate. -/
def shouldClauseForThreat (t : ThreatSource) : List MatchClause :=
  (((FIELDS.map (fun field =>
        (field,
         getThreatIndicatorPath t (if strIncludes field ".ip" then "ip" else field)))).filter
      (fun p => truthyStr p.2)).map
    (fun p => MatchClause.mk p.1 p.2))

/-- The should clause as the specification words it: in the fixed order, one
predicate per event-field whose probed indicator path (`threat.indicator.ip`
for the two `.ip` fields, `threat.indicator.f` otherwise) holds a non-empty
value, skipping absent or empty values. -/
def specShouldClause (t : ThreatSource) : List MatchClause :=
  FIELDS.filterMap (fun f =>
    match getThreatIndicatorPath t
        (if f = "source.ip" ∨ f = "destination.ip" then "ip" else f) with
    | none => none
    | some v => if v = "" then none else some (MatchClause.mk f (some v)))

/-- The per-indicator event query built by `matchEvents`: a disjunction of
should clauses with `minimum_should_match: 1` and an optional `must` range
clause giving a lower bound on `@timestamp`. -/
structure EventsQuery where
  should : List MatchClause
  mustGte : Option Nat
deriving DecidableEq

/-- `matchEvents`'s query construction: the optional range clause is spread in
under JS truthiness of `get(threat, "threat.detection.timestamp")` — a number,
so present-and-nonzero. -/
def eventsQueryForThreat (t : ThreatSource) : EventsQuery :=
  EventsQuery.mk (shouldClauseForThreat t)
    (match t.detectionTimestamp with
     | none => none
     | some ts => if ts ≠ 0 then some ts else none)

/-- An event document: a flat field map plus its `@timestamp` (epoch millis). -/
structure Event where
  fields : List (String × String)
  timestamp : Nat
deriving DecidableEq

/-- Field lookup on an event document. -/
def eventField (e : Event) (f : String) : Option String :=
  (e.fields.find? (fun p => p.1 = f)).map (fun p => p.2)

/-- An event satisfies a `match` predicate iff it carries the predicate's value
at the predicate's field. -/
def matchesClause (e : Event) (c : MatchClause) : Bool :=
  match c.value with
  | none => false
  | some v => eventField e c.field = some v

/-- Backend semantics of the event query: at least one should clause holds
(`minimum_should_match: 1`) and the `@timestamp` range clause, when present,
holds. -/
def eventMatchesQuery (e : Event) (q : EventsQuery) : Bool :=
  q.should.any (fun c => matchesClause e c) &&
    (match q.mustGte with
     | none => true
     | some g => g ≤ e.timestamp)

/-- The true number of events of the index matching the query. -/
def trueCount (events : List Event) (q : EventsQuery) : Nat :=
  (events.filter (fun e => eventMatchesQuery e q)).length

/-- The shapes the search response's `total` can take in the client typings:
a bare number or an object with a `value` field. -/
inductive TotalHits where
  | num : Nat → TotalHits
  | obj : Nat → TotalHits
deriving DecidableEq

/-- The `total` reported by `search` under `track_total_hits: 100, size: 0`:
the backend counts accurately up to the bound, so the carried value is
`min (trueCount) 100`; the flag picks the response shape. -/
def searchBoundedTotal (shapeObj : Bool) (events : List Event)
    (q : EventsQuery) : TotalHits :=
  if shapeObj then TotalHits.obj (min (trueCount events q) 100)
  else TotalHits.num (min (trueCount events q) 100)

/-- `fastCount`'s unwrapping of the reported total: a bare number is returned
as-is, otherwise `total?.value || 0`. -/
def fastCount (total : TotalHits) : Nat :=
  match total with
  | TotalHits.num n => n
  | TotalHits.obj v => if v ≠ 0 then v else 0

/-- End-to-end `fastCount` on an index: unwrap the bounded total reported by
the backend for the query. -/
def fastCountRun (shapeObj : Bool) (events : List Event) (q : EventsQuery) : Nat :=
  fastCount (searchBoundedTotal shapeObj events q)

/-- `matchEvents`: build the per-indicator query and `fastCount` it. -/
def matchEvents (shapeObj : Bool) (events : List Event) (t : ThreatSource) : Nat :=
  fastCountRun shapeObj events (eventsQueryForThreat t)

/-- A search hit of the indicator stream: `_id`, `_index` and the optional
`_source` document. -/
structure Hit where
  id : String
  index : String
  source : Option ThreatSource
deriving DecidableEq

/-- One element of the per-page `matches` buffer: `(count, id, index)`. -/
structure BulkEntry where
  id : String
  index : String
  count : Nat
deriving DecidableEq

/-- `Number(get(threat, "threat.detection.matches") || 0)`: the prior
cumulative count, `0` when absent (and `0 || 0` is `0`). -/
def knownThreats (t : ThreatSource) : Nat :=
  t.detectionMatches.getD 0

/-- The worker body for one hit, all backend calls succeeding: a hit with a
missing `_source` is logged and skipped (no buffer entry); otherwise the entry
`knownThreats + matchEvents` is pushed. -/
def processThreatHit (shapeObj : Bool) (events : List Event) (h : Hit) :
    Option BulkEntry :=
  match h.source with
  | none => none
  | some t => some (BulkEntry.mk h.id h.index (knownThreats t + matchEvents shapeObj events t))

/-- The page-level worker pool (`async.eachLimit`) with every worker
succeeding: the `matches` buffer collected over the page's hits. -/
def processPage (shapeObj : Bool) (events : List Event) (hits : List Hit) :
    List BulkEntry :=
  hits.filterMap (fun h => processThreatHit shapeObj events h)

/-- The partial document of one bulk update operation:
`threat.detection.timestamp` and `threat.detection.matches`, carried together
(`matchCount` embeds the `matches` subfield). -/
structure BulkDoc where
  timestamp : Nat
  matchCount : Nat
deriving DecidableEq

/-- One bulk update operation: the update header (`_id`, `_index`) and its
partial document. -/
structure BulkOp where
  id : String
  index : String
  doc : BulkDoc
deriving DecidableEq

/-- The `operations` array built at the page join: one update op per buffer
entry, the doc stamping `Date.now()` (the write time) and the entry's count. -/
def bulkOpsForPage (writeTime : Nat) (entries : List BulkEntry) : List BulkOp :=
  entries.map (fun m => BulkOp.mk m.id m.index (BulkDoc.mk writeTime m.count))

/-- A page of the indicator stream together with the wall-clock readings of
this iteration: `Date.now()` at the loop-head deadline check and `Date.now()`
when the bulk operations are built. -/
structure TimedPage where
  checkTime : Nat
  hits : List Hit
  writeTime : Nat
deriving DecidableEq

/-- What the orchestrator produces: the bulk request of every processed page,
in page order, and the `paused` bit. -/
structure ScanResult where
  bulks : List (List BulkOp)
  paused : Bool
deriving DecidableEq

/-- The loop-head deadline test `Date.now() - start > intervalInSeconds * 1000 - 100`,
over the integers as in JS arithmetic. -/
def deadlinePassed (start iis checkTime : Nat) : Bool :=
  (checkTime : Int) - (start : Int) > (iis : Int) * 1000 - 100

/-- The orchestrator page loop of `scan`, all backend calls succeeding: at each
page boundary the deadline is checked first; past the deadline the loop breaks
with `paused = true`, processing nothing further; otherwise the page is fanned
out, its buffer turned into one bulk request, and the loop continues. -/
def scanLoop (shapeObj : Bool) (events : List Event) (start iis : Nat) :
    List TimedPage → ScanResult
  | [] => ScanResult.mk [] false
  | p :: rest =>
    if deadlinePassed start iis p.checkTime then ScanResult.mk [] true
    else
      let entries := processPage shapeObj events p.hits
      let r := scanLoop shapeObj events start iis rest
      ScanResult.mk (bulkOpsForPage p.writeTime entries :: r.bulks) r.paused

/-- The worker body with a fallible event count: `outcome id` is the settled
per-indicator `matchEvents` promise for the hit with that `_id`.  A rejection
is not caught anywhere in the worker. -/
def processThreatHitE (outcome : String → Except String Nat) (h : Hit) :
    Except String (Option BulkEntry) :=
  match h.source with
  | none => Except.ok none
  | some t =>
    match outcome h.id with
    | Except.error e => Except.error e
    | Except.ok delta =>
        Except.ok (some (BulkEntry.mk h.id h.index (knownThreats t + delta)))

/-- `async.eachLimit` over a page with fallible workers: per the `async`
library, the first iteratee error rejects the awaited call immediately, so the
buffer of a failing page is never delivered. -/
def eachLimitE (outcome : String → Except String Nat) :
    List Hit → Except String (List BulkEntry)
  | [] => Except.ok []
  | h :: rest =>
    match processThreatHitE outcome h with
    | Except.error e => Except.error e
    | Except.ok none => eachLimitE outcome rest
    | Except.ok (some entry) =>
        (eachLimitE outcome rest).map (fun es => entry :: es)

/-- The orchestrator page loop with fallible workers: `scan` has no handler
around `await async.eachLimit(...)`, so a page whose pool rejects makes the
whole loop — and `scan`'s promise — reject; the page's bulk request is never
issued.  The deadline branch still returns normally. -/
def scanLoopE (outcome : String → Except String Nat) (start iis : Nat) :
    List TimedPage → Except String ScanResult
  | [] => Except.ok (ScanResult.mk [] false)
  | p :: rest =>
    if deadlinePassed start iis p.checkTime then Except.ok (ScanResult.mk [] true)
    else
      match eachLimitE outcome p.hits with
      | Except.error e => Except.error e
      | Except.ok entries =>
          (scanLoopE outcome start iis rest).map
            (fun r => ScanResult.mk (bulkOpsForPage p.writeTime entries :: r.bulks) r.paused)

/-- Eligibility of an indicator under `threatQuery`'s selection at a given
cutoff (`now - interval`): never checked, or last checked at or before the
cutoff. -/
def eligibleAt (t : ThreatSource) (cutoff : Nat) : Bool :=
  match t.detectionTimestamp with
  | none => true
  | some ts => ts ≤ cutoff

/-- Effect of one bulk update doc on the stored indicator document. -/
def applyDetectionWrite (t : ThreatSource) (d : BulkDoc) : ThreatSource :=
  ThreatSource.mk t.urlFull t.fileHashSha1 t.fileHashMd5 t.filePeImphash t.ip
    (some d.timestamp) (some d.matchCount)

/-- A hit of the paginated indicator stream, carrying the scripted sort key
the backend returned for it. -/
structure GenHit where
  id : String
  sortKey : Int
deriving DecidableEq

/-- The terminal sort key of a page: `docs[docs.length - 1].sort`. -/
def terminalKey (page : List GenHit) : Option Int :=
  page.getLast?.map (fun d => d.sortKey)

/-- Request/response trace of `documentGenerator`: `fetch after` is the page
the backend returns for a `search_after` value (the point-in-time id, query
and sort salt are fixed for the stream's lifetime).  Each trace entry records
one issued search request (its `search_after`) with the page it returned; an
empty page breaks the loop, so it is the trace's last entry.  `fuel` bounds
the unrolling of the source's `while (true)`. -/
def documentGenerator (fetch : Option Int → List GenHit) :
    Nat → Option Int → List (Option Int × List GenHit)
  | 0, _ => []
  | fuel + 1, after =>
    let docs := fetch after
    match docs.getLast? with
    | none => [(after, docs)]
    | some lastDoc => (after, docs) :: documentGenerator fetch fuel (some lastDoc.sortKey)

/-- An indicator document that carries detection timestamp 0 (the epoch):
it has been scanned before, yet 0 is falsy in JS. -/
def threatZeroTs : ThreatSource :=
  ThreatSource.mk (some "http://a.test") none none none none (some 0) (some 1)

/-- An indicator of an unrecognized type: no observable present at all. -/
def unknownTypeThreat : ThreatSource :=
  ThreatSource.mk none none none none none none (some 2)

/-- A concrete previously-scanned URL indicator. -/
def scannedUrlThreat : ThreatSource :=
  ThreatSource.mk (some "http://a.test") none none none none (some 5) (some 3)

/-- A worker outcome whose event-count call rejects for every indicator. -/
def failingOutcome : String → Except String Nat :=
  fun _ => Except.error "backend failure"

/-- A concrete URL indicator never scanned before. -/
def urlThreat : ThreatSource :=
  ThreatSource.mk (some "http://a.test") none none none none none none

/-- A concrete backend for the pagination witness: the first two requests
return one-document pages, every later request an empty page. -/
def fetchW : Option Int → List GenHit
  | none => [GenHit.mk "a" 1]
  | some 1 => [GenHit.mk "b" 2]
  | _ => []

/-- A page-level predicate that holds of no event makes the filtered count
zero. -/
theorem trueCount_empty_should (events : List Event) (q : EventsQuery)
    (hq : q.should = []) : trueCount events q = 0 := by
  unfold trueCount
  have hall : ∀ e : Event, eventMatchesQuery e q = false := by
    intro e
    unfold eventMatchesQuery
    rw [hq]
    simp
  simp [hall]

/-- `fastCountRun` computes the bounded total exactly. -/
theorem fastCountRun_eq_min (shapeObj : Bool) (events : List Event)
    (q : EventsQuery) :
    fastCountRun shapeObj events q = min (trueCount events q) 100 := by
  unfold fastCountRun searchBoundedTotal fastCount
  cases shapeObj
  · simp
  · simp
    omega

/-- C5: the event counter returns between 0 and 100 inclusive; past the bound
it returns exactly the bound, below it the true count — a lower-bound
estimate.  (`min` packages the two cases; the explicit bounds follow.) -/
theorem fastCount_bounded_lower_estimate (shapeObj : Bool)
    (events : List Event) (q : EventsQuery) :
    fastCountRun shapeObj events q = min (trueCount events q) 100 ∧
    fastCountRun shapeObj events q ≤ 100 ∧
    fastCountRun shapeObj events q ≤ trueCount events q := by
  have h := fastCountRun_eq_min shapeObj events q
  exact ⟨h, by omega, by omega⟩

/-- C10: with the interval parameter omitted, the scan runs with interval
"1m": a 60-second wall-clock budget and a `now-1m` eligibility threshold. -/
theorem scan_interval_defaults_to_one_minute :
    defaultedInterval none = "1m" ∧
    intervalInSeconds (defaultedInterval none) = some 60 ∧
    threatQueryLte (defaultedInterval none) = "now-1m" :=
  ⟨rfl, by decide, by decide⟩

/-- C7, counterexample: an indicator that carries a detection timestamp (it
has been scanned before) whose event query nevertheless has no `@timestamp`
range clause — the stored timestamp 0 is falsy, so the spread is skipped. -/
theorem time_floor_counterexample :
    threatZeroTs.detectionTimestamp.isSome = true ∧
    (eventsQueryForThreat threatZeroTs).mustGte = none :=
  ⟨rfl, rfl⟩

/-- C7, amended: the event query carries the range clause
`@timestamp gte prior` iff the indicator carries a NONZERO prior detection
timestamp; a zero timestamp is treated like an absent one. -/
theorem time_floor_iff_nonzero_timestamp (t : ThreatSource) (ts : Nat) :
    (eventsQueryForThreat t).mustGte = some ts ↔
      t.detectionTimestamp = some ts ∧ ts ≠ 0 := by
  unfold eventsQueryForThreat
  cases h : t.detectionTimestamp with
  | none => simp
  | some v =>
    by_cases hv : v = 0
    · subst hv
      simp
      intro h1
      omega
    · simp [hv]
      intro h1
      omega

/-- C4: an indicator whose should clause is empty still gets a buffer entry
with count `prior + 0` — its event query matches nothing, the delta is 0, the
indicator is stamped, and once the write applies it is no longer eligible at
any cutoff before the write time. -/
theorem empty_clause_still_stamped (shapeObj : Bool) (events : List Event)
    (h : Hit) (t : ThreatSource) (now cutoff : Nat)
    (hsrc : h.source = some t) (hempty : shouldClauseForThreat t = [])
    (hcut : cutoff < now) :
    processThreatHit shapeObj events h =
      some (BulkEntry.mk h.id h.index (knownThreats t + 0)) ∧
    matchEvents shapeObj events t = 0 ∧
    eligibleAt (applyDetectionWrite t (BulkDoc.mk now (knownThreats t + 0)))
      cutoff = false := by
  have hshould : (eventsQueryForThreat t).should = [] := hempty
  have hzero : matchEvents shapeObj events t = 0 := by
    unfold matchEvents
    rw [fastCountRun_eq_min, trueCount_empty_should events _ hshould]
    simp
  refine ⟨?_, hzero, ?_⟩
  · simp only [processThreatHit, hsrc]
    rw [hzero]
  · unfold eligibleAt applyDetectionWrite
    simp
    omega

/-- Witness for C4 at a concrete indicator with an empty should clause. -/
theorem empty_clause_still_stamped_witness :
    processThreatHit false [] (Hit.mk "t1" "ti" (some unknownTypeThreat)) =
      some (BulkEntry.mk "t1" "ti" (knownThreats unknownTypeThreat + 0)) ∧
    matchEvents false [] unknownTypeThreat = 0 ∧
    eligibleAt
      (applyDetectionWrite unknownTypeThreat
        (BulkDoc.mk 10 (knownThreats unknownTypeThreat + 0))) 5 = false :=
  empty_clause_still_stamped false [] (Hit.mk "t1" "ti" (some unknownTypeThreat))
    unknownTypeThreat 10 5 rfl (by decide) (by decide)

/-- `parseInt` consumes exactly the digit prefix: appending one non-digit
unit character leaves the digits. -/
theorem leadingDigits_append_unit (ds : List Char) (c : Char)
    (hds : ∀ d ∈ ds, d.isDigit) (hc : c.isDigit = false) :
    leadingDigits (ds ++ [c]) = ds := by
  induction ds with
  | nil => simp [leadingDigits, hc]
  | cons d rest ih =>
    have hd : d.isDigit := hds d (by simp)
    have ih2 := ih (fun x hx => hds x (by simp [hx]))
    simp [leadingDigits, hd, ih2]

/-- Single-character substring search is membership. -/
theorem hasInfix_singleton (a : Char) (l : List Char) :
    hasInfix [a] l = decide (a ∈ l) := by
  induction l with
  | nil => simp [hasInfix]
  | cons c cs ih =>
    by_cases hac : a = c
    · subst hac
      simp [hasInfix, List.isPrefixOf]
    · simp [hasInfix, List.isPrefixOf, ih, hac]

/-- C2: on a duration string of one or more digits followed by a unit
character, the budget is the digit value times 1 for `s`, 60 for `m`,
3600 for `h`, and 1 for any unrecognized unit. -/
theorem interval_budget_spec (ds : List Char) (c : Char)
    (hne : ds ≠ []) (hds : ∀ d ∈ ds, d.isDigit) (hc : c.isDigit = false) :
    intervalInSeconds (String.mk (ds ++ [c])) =
      some (digitsToNat ds *
        (if c = 's' then 1 else if c = 'm' then 60
         else if c = 'h' then 3600 else 1)) := by
  have htl : (String.mk (ds ++ [c])).toList = ds ++ [c] := rfl
  have hparse : parseIntJS (String.mk (ds ++ [c])) = some (digitsToNat ds) := by
    unfold parseIntJS
    rw [htl, leadingDigits_append_unit ds c hds hc]
    simp [hne]
  have hmem : ∀ a : Char, a.isDigit = false → ((a ∈ ds ++ [c]) ↔ a = c) := by
    intro a ha
    rw [List.mem_append, List.mem_singleton]
    constructor
    · rintro (h1 | h1)
      · have hdig := hds a h1
        rw [ha] at hdig
        exact absurd hdig (by simp)
      · exact h1
    · intro h1
      exact Or.inr h1
  have hinc : ∀ a : Char, a.isDigit = false →
      strIncludes (String.mk (ds ++ [c])) (String.mk [a]) = decide (a = c) := by
    intro a ha
    unfold strIncludes
    rw [htl]
    have hta : (String.mk [a]).toList = [a] := rfl
    rw [hta, hasInfix_singleton, decide_eq_decide]
    exact hmem a ha
  have hm : strIncludes (String.mk (ds ++ [c])) "m" = decide (c = 'm') := by
    have : ("m" : String) = String.mk ['m'] := rfl
    rw [this, hinc 'm' (by decide), decide_eq_decide]
    exact eq_comm
  have hh : strIncludes (String.mk (ds ++ [c])) "h" = decide (c = 'h') := by
    have : ("h" : String) = String.mk ['h'] := rfl
    rw [this, hinc 'h' (by decide), decide_eq_decide]
    exact eq_comm
  have hmul : intervalMultiplier (String.mk (ds ++ [c])) =
      (if c = 's' then 1 else if c = 'm' then 60
       else if c = 'h' then 3600 else 1) := by
    unfold intervalMultiplier
    rw [hm, hh]
    by_cases h1 : c = 'm' <;> by_cases h2 : c = 'h' <;>
      by_cases h3 : c = 's' <;> simp_all
  unfold intervalInSeconds
  rw [hparse, hmul]
  rfl

/-- Witness for C2 at the concrete duration string "5m". -/
theorem interval_budget_spec_witness :
    intervalInSeconds (String.mk (['5'] ++ ['m'])) =
      some (digitsToNat ['5'] *
        (if 'm' = 's' then 1 else if 'm' = 'm' then 60
         else if 'm' = 'h' then 3600 else 1)) :=
  interval_budget_spec ['5'] 'm' (by decide) (by decide) (by decide)

/-- Truthiness of an absent value. -/
theorem truthyStr_none : truthyStr none = false := rfl

/-- Truthiness of a present string value. -/
theorem truthyStr_some (s : String) : truthyStr (some s) = decide (s ≠ "") := rfl

/-- The map-filter-map pipeline of the source equals the specification's
filterMap on any field list on which `includes(".ip")` agrees with being one
of the two IP event fields. -/
theorem should_eq_spec_aux (t : ThreatSource) (fs : List String)
    (hfs : ∀ f ∈ fs,
      (if strIncludes f ".ip" then "ip" else f) =
        (if f = "source.ip" ∨ f = "destination.ip" then "ip" else f)) :
    (((fs.map (fun field =>
          (field,
           getThreatIndicatorPath t
             (if strIncludes field ".ip" then "ip" else field)))).filter
        (fun p => truthyStr p.2)).map
      (fun p => MatchClause.mk p.1 p.2)) =
    fs.filterMap (fun f =>
      match getThreatIndicatorPath t
          (if f = "source.ip" ∨ f = "destination.ip" then "ip" else f) with
      | none => none
      | some v => if v = "" then none else some (MatchClause.mk f (some v))) := by
  induction fs with
  | nil => rfl
  | cons f fs ih =>
    have hf := hfs f (by simp)
    have ih2 := ih (fun x hx => hfs x (by simp [hx]))
    simp only [List.map_cons, List.filter_cons, List.filterMap_cons]
    rw [hf]
    cases hv : getThreatIndicatorPath t
        (if f = "source.ip" ∨ f = "destination.ip" then "ip" else f) with
    | none => simp [hv, truthyStr_none, ih2]
    | some s =>
      by_cases hs : s = ""
      · subst hs
        simp [hv, truthyStr_some, ih2]
      · simp [hv, truthyStr_some, hs, ih2]

/-- C8: the should-clause builder produces, in the fixed field order, exactly
one match predicate per event field whose probed indicator path (the shared
`ip` observable for the two IP fields, the field itself otherwise) holds a
non-empty value, skipping absent or empty values. -/
theorem should_clause_matches_spec (t : ThreatSource) :
    shouldClauseForThreat t = specShouldClause t := by
  unfold shouldClauseForThreat specShouldClause
  exact should_eq_spec_aux t FIELDS (by decide)

/-- C3: for every successfully processed indicator of a page, the page's bulk
request contains the operation for that indicator, and that single operation
carries both detection fields: `matches` equal to the prior value (0 if
absent) plus this run's non-negative delta — hence no smaller than the prior
value — and `timestamp` equal to the wall clock read when the operations are
built; under a monotone clock this is no smaller than the prior timestamp. -/
theorem detection_write_monotone (shapeObj : Bool) (events : List Event)
    (now : Nat) (hits : List Hit) (h : Hit) (t : ThreatSource)
    (hmem : h ∈ hits) (hsrc : h.source = some t)
    (hclock : t.detectionTimestamp.getD 0 ≤ now) :
    BulkOp.mk h.id h.index
        (BulkDoc.mk now (knownThreats t + matchEvents shapeObj events t)) ∈
      bulkOpsForPage now (processPage shapeObj events hits) ∧
    t.detectionMatches.getD 0 ≤ knownThreats t + matchEvents shapeObj events t ∧
    t.detectionTimestamp.getD 0 ≤ now := by
  refine ⟨?_, Nat.le_add_right _ _, hclock⟩
  have hentry :
      BulkEntry.mk h.id h.index (knownThreats t + matchEvents shapeObj events t) ∈
        processPage shapeObj events hits := by
    unfold processPage
    refine List.mem_filterMap.mpr ⟨h, hmem, ?_⟩
    simp only [processThreatHit, hsrc]
  unfold bulkOpsForPage
  exact List.mem_map.mpr ⟨_, hentry, rfl⟩

/-- Witness for C3 at a concrete one-hit page. -/
theorem detection_write_monotone_witness :
    BulkOp.mk "a" "ti"
        (BulkDoc.mk 100
          (knownThreats scannedUrlThreat + matchEvents false [] scannedUrlThreat)) ∈
      bulkOpsForPage 100
        (processPage false [] [Hit.mk "a" "ti" (some scannedUrlThreat)]) ∧
    scannedUrlThreat.detectionMatches.getD 0 ≤
      knownThreats scannedUrlThreat + matchEvents false [] scannedUrlThreat ∧
    scannedUrlThreat.detectionTimestamp.getD 0 ≤ 100 :=
  detection_write_monotone false [] 100 [Hit.mk "a" "ti" (some scannedUrlThreat)]
    (Hit.mk "a" "ti" (some scannedUrlThreat)) scannedUrlThreat
    (List.mem_singleton.mpr rfl) rfl (by decide)

/-- C1, counterexample: one page of one indicator whose per-indicator count
call rejects.  The orchestrator does not continue: the rejection propagates
out of the scan as an error (nothing is caught or logged inside `scan`). -/
theorem worker_failure_escapes_counterexample :
    scanLoopE failingOutcome 0 60
        [TimedPage.mk 0 [Hit.mk "t1" "ti" (some urlThreat)] 0] =
      Except.error "backend failure" := rfl

/-- C1, amended: a worker rejection on a page (with the deadline not yet hit)
rejects the page's `async.eachLimit` call and the error propagates out of the
orchestrator; the scan aborts there, so the failing page — the failing
indicator included — gets no bulk update and later pages are not processed. -/
theorem worker_failure_aborts (outcome : String → Except String Nat)
    (start iis : Nat) (p : TimedPage) (rest : List TimedPage) (e : String)
    (hnd : deadlinePassed start iis p.checkTime = false)
    (herr : eachLimitE outcome p.hits = Except.error e) :
    scanLoopE outcome start iis (p :: rest) = Except.error e := by
  unfold scanLoopE
  rw [hnd, herr]
  rfl

/-- Witness for the amended C1 at a concrete failing page. -/
theorem worker_failure_aborts_witness :
    scanLoopE failingOutcome 0 60
        (TimedPage.mk 0 [Hit.mk "t1" "ti" (some urlThreat)] 0 ::
          [TimedPage.mk 1 [] 1]) =
      Except.error "backend failure" :=
  worker_failure_aborts failingOutcome 0 60
    (TimedPage.mk 0 [Hit.mk "t1" "ti" (some urlThreat)] 0)
    [TimedPage.mk 1 [] 1] "backend failure" (by decide) rfl

/-- C6: with the deadline first passed at the boundary of page `k`, the scan
returns cleanly: `paused = true`, exactly the first `k` pages' bulk requests
were issued, and the current page is neither processed nor partially
submitted.  The second conjunct states the same boundary in the fallible
model: whatever the workers would have done, the loop exits normally (no
error) the moment the deadline test fires. -/
theorem deadline_pause (shapeObj : Bool) (events : List Event)
    (outcome : String → Except String Nat) (start iis : Nat)
    (tps : List TimedPage) (k : Nat) (hk : k < tps.length)
    (hbefore : ∀ j, (hj : j < k) →
      deadlinePassed start iis
        ((tps.get (Fin.mk j (Nat.lt_trans hj hk))).checkTime) = false)
    (hdead : deadlinePassed start iis ((tps.get (Fin.mk k hk)).checkTime) = true) :
    scanLoop shapeObj events start iis tps =
      ScanResult.mk
        ((tps.take k).map
          (fun p => bulkOpsForPage p.writeTime (processPage shapeObj events p.hits)))
        true ∧
    scanLoopE outcome start iis (tps.drop k) =
      Except.ok (ScanResult.mk [] true) := by
  induction k generalizing tps with
  | zero =>
    cases tps with
    | nil => cases hk
    | cons p rest =>
      have hd : deadlinePassed start iis p.checkTime = true := hdead
      constructor
      · unfold scanLoop
        rw [hd]
        simp
      · unfold scanLoopE
        simp [hd]
  | succ k ihk =>
    cases tps with
    | nil => cases hk
    | cons p rest =>
      have h0 : deadlinePassed start iis p.checkTime = false :=
        hbefore 0 (Nat.succ_pos k)
      have hk' : k < rest.length := Nat.lt_of_succ_lt_succ hk
      have hbefore' : ∀ j, (hj : j < k) →
          deadlinePassed start iis
            ((rest.get (Fin.mk j (Nat.lt_trans hj hk'))).checkTime) = false := by
        intro j hj
        exact hbefore (j + 1) (Nat.succ_lt_succ hj)
      have hdead' : deadlinePassed start iis
          ((rest.get (Fin.mk k hk')).checkTime) = true := hdead
      obtain ⟨ih1, ih2⟩ := ihk rest hk' hbefore' hdead'
      constructor
      · unfold scanLoop
        rw [h0]
        simp [ih1, List.take_succ_cons]
      · rw [List.drop_succ_cons]
        exact ih2

/-- Witness for C6: the deadline fires at the very first page boundary. -/
theorem deadline_pause_witness :
    scanLoop false [] 0 1 [TimedPage.mk 2000 [] 2000] =
      ScanResult.mk
        ((([] : List TimedPage)).map
          (fun p => bulkOpsForPage p.writeTime (processPage false [] p.hits)))
        true ∧
    scanLoopE (fun _ => Except.ok 0) 0 1
        ([TimedPage.mk 2000 [] 2000].drop 0) =
      Except.ok (ScanResult.mk [] true) :=
  deadline_pause false [] (fun _ => Except.ok 0) 0 1
    [TimedPage.mk 2000 [] 2000] 0 (by decide)
    (fun j hj => absurd hj (Nat.not_lt_zero j)) (by decide)

/-- With fuel left, the trace's first entry records a request with exactly the
`search_after` value the generator was entered with. -/
theorem documentGenerator_head (fetch : Option Int → List GenHit) (fuel : Nat)
    (a : Option Int) (hfuel : fuel ≠ 0) :
    (documentGenerator fetch fuel a).head?.map Prod.fst = some a := by
  cases fuel with
  | zero => exact absurd rfl hfuel
  | succ n =>
    unfold documentGenerator
    cases hl : (fetch a).getLast? <;> simp [hl]

/-- One-step unfolding of the generator trace at positive fuel. -/
theorem documentGenerator_succ (fetch : Option Int → List GenHit) (n : Nat)
    (a : Option Int) :
    documentGenerator fetch (n + 1) a =
      match (fetch a).getLast? with
      | none => [(a, fetch a)]
      | some lastDoc =>
          (a, fetch a) :: documentGenerator fetch n (some lastDoc.sortKey) := rfl

/-- Trace step when the backend returns an empty page. -/
theorem documentGenerator_succ_none (fetch : Option Int → List GenHit)
    (n : Nat) (a : Option Int) (hl : (fetch a).getLast? = none) :
    documentGenerator fetch (n + 1) a = [(a, fetch a)] := by
  rw [documentGenerator_succ, hl]

/-- Trace step when the backend returns a non-empty page. -/
theorem documentGenerator_succ_some (fetch : Option Int → List GenHit)
    (n : Nat) (a : Option Int) (lastDoc : GenHit)
    (hl : (fetch a).getLast? = some lastDoc) :
    documentGenerator fetch (n + 1) a =
      (a, fetch a) :: documentGenerator fetch n (some lastDoc.sortKey) := by
  rw [documentGenerator_succ, hl]

/-- Consecutive trace entries chain through the previous page's terminal sort
key, and an entry followed by another one returned a non-empty page. -/
theorem documentGenerator_chain (fetch : Option Int → List GenHit) :
    ∀ (fuel : Nat) (a : Option Int) (j : Nat),
      j + 1 < (documentGenerator fetch fuel a).length →
      ((documentGenerator fetch fuel a)[j+1]?.map Prod.fst =
        some (terminalKey
          (((documentGenerator fetch fuel a)[j]?.map Prod.snd).getD [])) ∧
      (documentGenerator fetch fuel a)[j]?.map Prod.snd ≠ some []) := by
  intro fuel
  induction fuel with
  | zero =>
    intro a j hj
    simp [documentGenerator] at hj
  | succ n ih =>
    intro a j hj
    cases hl : (fetch a).getLast? with
    | none =>
      rw [documentGenerator_succ_none fetch n a hl] at hj
      simp at hj
    | some lastDoc =>
      rw [documentGenerator_succ_some fetch n a lastDoc hl] at hj ⊢
      simp only [List.length_cons] at hj
      have hne : fetch a ≠ [] := by
        intro h0
        rw [h0] at hl
        cases hl
      cases j with
      | zero =>
        have hn : n ≠ 0 := by
          intro h0
          subst h0
          simp [documentGenerator] at hj
        have hhead :=
          documentGenerator_head fetch n (some lastDoc.sortKey) hn
        rw [List.head?_eq_getElem?] at hhead
        constructor
        · simp only [List.getElem?_cons_succ, List.getElem?_cons_zero, hhead,
            Option.map_some', Option.getD_some]
          simp [terminalKey, hl]
        · simp [hne]
      | succ k =>
        have hj' : k + 1 <
            (documentGenerator fetch n (some lastDoc.sortKey)).length := by
          omega
        have hstep := ih (some lastDoc.sortKey) k hj'
        simpa using hstep

/-- C9: in the generator's request/response trace started without
`search_after`, the first request omits `search_after`; every request after
the first carries `search_after` equal to the terminal sort key of the
previous page; and an entry followed by a further request returned a
non-empty page — equivalently, the first empty page is the last entry and no
request is issued after it. -/
theorem document_generator_pagination (fetch : Option Int → List GenHit)
    (fuel j : Nat) (hj : j + 1 < (documentGenerator fetch fuel none).length) :
    (documentGenerator fetch fuel none).head?.map Prod.fst = some none ∧
    (documentGenerator fetch fuel none)[j+1]?.map Prod.fst =
      some (terminalKey
        (((documentGenerator fetch fuel none)[j]?.map Prod.snd).getD [])) ∧
    (documentGenerator fetch fuel none)[j]?.map Prod.snd ≠ some [] := by
  have hfuel : fuel ≠ 0 := by
    intro h0
    subst h0
    simp [documentGenerator] at hj
  obtain ⟨h1, h2⟩ := documentGenerator_chain fetch fuel none j hj
  exact ⟨documentGenerator_head fetch fuel none hfuel, h1, h2⟩

/-- Witness for C9 on the concrete three-request trace. -/
theorem document_generator_pagination_witness :
    (documentGenerator fetchW 10 none).head?.map Prod.fst = some none ∧
    (documentGenerator fetchW 10 none)[0+1]?.map Prod.fst =
      some (terminalKey
        (((documentGenerator fetchW 10 none)[0]?.map Prod.snd).getD [])) ∧
    (documentGenerator fetchW 10 none)[0]?.map Prod.snd ≠ some [] :=
  document_generator_pagination fetchW 10 0 (by decide)

end ThreatScan
